import Mathlib

/-!
# The declaration surface of `src/src/scater.h`

The header contains no function bodies: it is an include guard, a list of
`#include` lines, and one `extern "C"` block holding two prototypes.  The
development below transcribes the header token by token (`scater_h`), reads
the token stream with a small declaration reader (`declarations`), and states
each property of the declaration surface on the result of that reader.

Preprocessor lines are kept as tokens and are not expanded: the files they
name (`Rcpp.h`, the `beachmat` headers, `template_methods.h`) are not part of
the transcribed text, so every statement here is about the text of
`scater.h` itself, read as on its first inclusion (include guard open).
Comments are dropped, as the C++ translation phases do before parsing.
-/

namespace Scater

/-! ## Tokens -/

/-- Lexical tokens occurring in the header: preprocessor lines, keywords,
identifiers, string literals and punctuation. -/
inductive Token where
  | ppIfndef (name : String)
  | ppDefine (name : String)
  | ppIncludeQuote (file : String)
  | ppIncludeAngle (file : String)
  | ppEndif
  | kw (s : String)
  | ident (s : String)
  | strLit (s : String)
  | lparen
  | rparen
  | lbrace
  | rbrace
  | comma
  | semi
  deriving DecidableEq, Repr

open Token in
/-- The token stream of `src/src/scater.h`, in source order.  Each group is
one source line, quoted in the comment to its right. -/
def scater_h : List Token :=
  [ ppIfndef "SCATER_H"                         -- #ifndef SCATER_H
  , ppDefine "SCATER_H"                         -- #define SCATER_H
  , ppIncludeQuote "Rcpp.h"                     -- #include "Rcpp.h"
  , ppIncludeQuote "beachmat/integer_matrix.h"  -- #include "beachmat/integer_matrix.h"
  , ppIncludeQuote "beachmat/numeric_matrix.h"  -- #include "beachmat/numeric_matrix.h"
  , ppIncludeAngle "algorithm"                  -- #include <algorithm>
  , ppIncludeAngle "deque"                      -- #include <deque>
  , ppIncludeAngle "stdexcept"                  -- #include <stdexcept>
  , ppIncludeAngle "functional"                 -- #include <functional>
  , ppIncludeAngle "cmath"                      -- #include <cmath>
    -- // Functions to be called from R.
  , kw "extern", strLit "C", lbrace             -- extern "C" {
    -- SEXP calc_top_features(SEXP, SEXP, SEXP);
  , ident "SEXP", ident "calc_top_features", lparen
  , ident "SEXP", comma, ident "SEXP", comma, ident "SEXP"
  , rparen, semi
    -- SEXP calc_exprs(SEXP, SEXP, SEXP, SEXP, SEXP, SEXP, SEXP);
  , ident "SEXP", ident "calc_exprs", lparen
  , ident "SEXP", comma, ident "SEXP", comma, ident "SEXP", comma, ident "SEXP", comma
  , ident "SEXP", comma, ident "SEXP", comma, ident "SEXP"
  , rparen, semi
  , rbrace                                      -- }
  , ppIncludeQuote "template_methods.h"         -- #include "template_methods.h"
  , ppEndif                                     -- #endif
  ]

/-! ## Declarations -/

/-- Language linkage of a declared function.  The header is C++ (it uses a
linkage specification), so a declaration outside every linkage block has
C++ linkage. -/
inductive Linkage where
  | cxx
  | c
  deriving DecidableEq, Repr

/-- A function declared at namespace scope: return type name, function name,
the parameter type names in order, whether a body follows the declarator, and
the language linkage in force at the declaration. -/
structure FunDecl where
  ret : String
  name : String
  params : List String
  hasBody : Bool
  linkage : Linkage
  deriving DecidableEq, Repr

/-- A declaration being read: the linkage given by a braceless linkage
specification in front of it (if any), and the parts seen so far. -/
structure Partial where
  one : Option Linkage
  ret : String
  name : String
  params : List String
  deriving DecidableEq, Repr

/-- Position of the declaration reader inside the grammar
`[extern "lang"] ret name ( [type [name] {, type [name]}] ) (; | { ... })`. -/
inductive Phase where
  | top
  | linkKw
  | linkLang (l : Linkage)
  | retType (one : Option Linkage) (r : String)
  | funName (p : Partial)
  | paramFirst (p : Partial)
  | paramNext (p : Partial)
  | paramSep (p : Partial)
  | paramNamed (p : Partial)
  | closed (p : Partial)
  | body (p : Partial) (depth : Nat)
  | failed
  deriving DecidableEq, Repr

/-- Reader state: the phase, the enclosing linkage blocks (innermost first)
and the declarations completed so far (in source order). -/
structure PState where
  phase : Phase
  blocks : List Linkage
  decls : List FunDecl
  deriving DecidableEq, Repr

/-- Start state: at namespace scope, outside every linkage block. -/
def PState.init : PState := ⟨.top, [], []⟩

/-- Linkage named by the string literal of a linkage specification. -/
def linkageOfLit (s : String) : Option Linkage :=
  if s = "C" then some .c else if s = "C++" then some .cxx else none

/-- Whether a token is a preprocessor line. -/
def Token.isDirective : Token → Bool
  | .ppIfndef _ => true
  | .ppDefine _ => true
  | .ppIncludeQuote _ => true
  | .ppIncludeAngle _ => true
  | .ppEndif => true
  | _ => false

/-- Complete the declaration `p`: its linkage is the one of its own linkage
specification, else of the innermost enclosing block, else C++. -/
def finish (s : PState) (p : Partial) (hasBody : Bool) : PState :=
  { s with
    phase := .top
    decls := s.decls ++ [⟨p.ret, p.name, p.params, hasBody, p.one.getD (s.blocks.headD .cxx)⟩] }

/-- One step of the reader on a token that is not a preprocessor line. -/
def stepCode (s : PState) (t : Token) : PState :=
  match s.phase with
  | .top =>
    match t with
    | .kw k => if k = "extern" then { s with phase := .linkKw } else { s with phase := .failed }
    | .ident r => { s with phase := .retType none r }
    | .rbrace =>
      match s.blocks with
      | [] => { s with phase := .failed }
      | _ :: bs => { s with blocks := bs }
    | _ => { s with phase := .failed }
  | .linkKw =>
    match t with
    | .strLit l =>
      match linkageOfLit l with
      | some k => { s with phase := .linkLang k }
      | none => { s with phase := .failed }
    | _ => { s with phase := .failed }
  | .linkLang l =>
    match t with
    | .lbrace => { s with phase := .top, blocks := l :: s.blocks }
    | .ident r => { s with phase := .retType (some l) r }
    | _ => { s with phase := .failed }
  | .retType one r =>
    match t with
    | .ident f => { s with phase := .funName ⟨one, r, f, []⟩ }
    | _ => { s with phase := .failed }
  | .funName p =>
    match t with
    | .lparen => { s with phase := .paramFirst p }
    | _ => { s with phase := .failed }
  | .paramFirst p =>
    match t with
    | .ident ty => { s with phase := .paramSep { p with params := p.params ++ [ty] } }
    | .rparen => { s with phase := .closed p }
    | _ => { s with phase := .failed }
  | .paramNext p =>
    match t with
    | .ident ty => { s with phase := .paramSep { p with params := p.params ++ [ty] } }
    | _ => { s with phase := .failed }
  | .paramSep p =>
    match t with
    | .comma => { s with phase := .paramNext p }
    | .rparen => { s with phase := .closed p }
    | .ident _ => { s with phase := .paramNamed p }
    | _ => { s with phase := .failed }
  | .paramNamed p =>
    match t with
    | .comma => { s with phase := .paramNext p }
    | .rparen => { s with phase := .closed p }
    | _ => { s with phase := .failed }
  | .closed p =>
    match t with
    | .semi => finish s p false
    | .lbrace => { s with phase := .body p 0 }
    | _ => { s with phase := .failed }
  | .body p depth =>
    match t with
    | .lbrace => { s with phase := .body p (depth + 1) }
    | .rbrace =>
      match depth with
      | 0 => finish s p true
      | d + 1 => { s with phase := .body p d }
    | _ => s
  | .failed => s

/-- One step of the reader: preprocessor lines are passed over, every other
token advances the grammar. -/
def step (s : PState) (t : Token) : PState :=
  if t.isDirective then s else stepCode s t

/-- The functions declared by a token stream, in source order; `none` when
the stream is not a sequence of complete declarations with every linkage
block closed. -/
def declarations (toks : List Token) : Option (List FunDecl) :=
  let s := toks.foldl step PState.init
  if s.phase = .top ∧ s.blocks = [] then some s.decls else none

/-- Return type and parameter types of every declaration of `f`. -/
def signaturesOf (f : String) (toks : List Token) : Option (List (String × List String)) :=
  (declarations toks).map fun ds =>
    (ds.filter fun d => d.name = f).map fun d => (d.ret, d.params)

/-- Number of parameters of every declaration of `f`. -/
def aritiesOf (f : String) (toks : List Token) : Option (List Nat) :=
  (signaturesOf f toks).map fun sigs => sigs.map fun sg => sg.2.length

/-- Name and linkage of every declared function, in source order. -/
def declaredSymbols (toks : List Token) : Option (List (String × Linkage)) :=
  (declarations toks).map fun ds => ds.map fun d => (d.name, d.linkage)

/-- Names of the functions that are defined (declared with a body). -/
def definedFunctions (toks : List Token) : Option (List String) :=
  (declarations toks).map fun ds => (ds.filter fun d => d.hasBody).map fun d => d.name

/-- Names of the functions that are declared by a prototype only. -/
def prototypesOnly (toks : List Token) : Option (List String) :=
  (declarations toks).map fun ds => (ds.filter fun d => !d.hasBody).map fun d => d.name

open Token in
/-- A stream used to exercise the reader: one prototype at namespace scope,
then a definition with a nested block in its body, then a braceless linkage
specification: `int f(int a); void g() { { } } extern "C" int h(int, char);`. -/
def sampleUnit : List Token :=
  [ ident "int", ident "f", lparen, ident "int", ident "a", rparen, semi
  , ident "void", ident "g", lparen, rparen, lbrace, lbrace, rbrace, rbrace
  , kw "extern", strLit "C", ident "int", ident "h", lparen
  , ident "int", comma, ident "char", rparen, semi ]

/-! ## The reader on the header -/

/-- The reader accepts the header and finds two declarations. -/
theorem declarations_scater_h :
    declarations scater_h = some
      [ ⟨"SEXP", "calc_top_features", ["SEXP", "SEXP", "SEXP"], false, .c⟩
      , ⟨"SEXP", "calc_exprs",
          ["SEXP", "SEXP", "SEXP", "SEXP", "SEXP", "SEXP", "SEXP"], false, .c⟩ ] := by
  rfl

/-- The reader tells prototypes from definitions and block linkage from the
default: on `sampleUnit` it reports `f` as a C++ prototype, `g` as a C++
definition and `h` as a C prototype. -/
theorem declarations_sampleUnit :
    declarations sampleUnit = some
      [ ⟨"int", "f", ["int"], false, .cxx⟩
      , ⟨"void", "g", [], true, .cxx⟩
      , ⟨"int", "h", ["int", "char"], false, .c⟩ ] := by
  rfl

/-- A stream that stops inside a linkage block, or in the middle of a
declarator, is rejected. -/
theorem declarations_incomplete :
    declarations [.kw "extern", .strLit "C", .lbrace] = none ∧
    declarations [.ident "SEXP", .ident "calc_exprs", .lparen, .ident "SEXP", .comma] = none := by
  constructor <;> rfl

/-- The header text, taken without its linkage block, would declare the same
two prototypes with C++ linkage: the C linkage reported for the header comes
from the block and from nothing else. -/
theorem declarations_without_block :
    declaredSymbols (scater_h.filter fun t =>
        t ≠ .kw "extern" ∧ t ≠ .strLit "C" ∧ t ≠ .lbrace ∧ t ≠ .rbrace)
      = some [("calc_top_features", .cxx), ("calc_exprs", .cxx)] := by
  decide

/-! ## Properties of the declaration surface -/

/-- C1: the header declares `calc_top_features` exactly once, with return type
`SEXP` and exactly three parameters, each of type `SEXP`. -/
theorem calc_top_features_signature :
    signaturesOf "calc_top_features" scater_h = some [("SEXP", ["SEXP", "SEXP", "SEXP"])] ∧
    aritiesOf "calc_top_features" scater_h = some [3] := by
  constructor <;> decide

/-- C2: the header declares `calc_exprs` exactly once, with return type `SEXP`
and exactly seven parameters, each of type `SEXP`. -/
theorem calc_exprs_signature :
    signaturesOf "calc_exprs" scater_h
      = some [("SEXP", ["SEXP", "SEXP", "SEXP", "SEXP", "SEXP", "SEXP", "SEXP"])] ∧
    aritiesOf "calc_exprs" scater_h = some [7] := by
  constructor <;> decide

/-- C3: the functions declared by the text of the header are exactly
`calc_top_features` and `calc_exprs`, two symbols and no others, and both are
declared inside the `extern "C"` block, so both have C linkage. -/
theorem declared_symbols_exact :
    declaredSymbols scater_h = some [("calc_top_features", .c), ("calc_exprs", .c)] ∧
    (declarations scater_h).map List.length = some 2 := by
  constructor <;> decide

/-- C4: every function named in the header is declared by a prototype only:
no declaration carries a body, so the set of functions the header text
defines is empty. -/
theorem prototypes_only_no_body :
    definedFunctions scater_h = some [] ∧
    prototypesOnly scater_h = some ["calc_top_features", "calc_exprs"] := by
  constructor <;> decide

end Scater
